import Mathlib

/-!
Verification development for the NSRPC runtime of RecordKit.Electron
(`src/NonstrictRPC.ts`).

The embedding is a direct translation of the `NSRPC` class:

* JSON values are modelled by the inductive `JValue`; a `Record<string, unknown>`
  is a `List (String × JValue)`.
* The JavaScript `Map` fields `responseHandlers` and `closureTargets` are
  association lists with first-match lookup (`mapGet`), replace-or-append
  insertion (`mapSet`) and key removal (`mapDelete`); a JS `Map` never holds
  two entries for one key, which the development carries as the `keysNodup`
  invariant.
* The outcome of `JSON.parse` inside `receive` is modelled by `ParsedLine`:
  the `catch` branch is `malformed`, and the shape discrimination
  `"status" in message` is the split between `response` and `request`.
* Calling the `resolve`/`reject` callbacks of a pending promise, and invoking
  a registered closure handler, are made observable as `Event`s; text handed
  to the transport (`this.send`) is collected in a `sent` list.
* `randomUUID()` and the freshly allocated promise are passed in as explicit
  parameters (`uuid`, `ps`), so freshness becomes a hypothesis.
-/

/-- A JSON value, as produced by `JSON.parse`. Objects keep field order. -/
inductive JValue where
  | null : JValue
  | bool (b : Bool) : JValue
  | num (n : Int) : JValue
  | str (s : String) : JValue
  | arr (items : List JValue) : JValue
  | obj (fields : List (String × JValue)) : JValue

/-- Models the JavaScript string coercion used by the template literal
in the 202 error body of `handleClosureRequest`. -/
def jsCoerceString : JValue → String
  | JValue.null => "null"
  | JValue.bool b => if b then "true" else "false"
  | JValue.num n => toString n
  | JValue.str s => s
  | JValue.arr _ => "[object Array]"
  | JValue.obj _ => "[object Object]"

/- JavaScript `Map` operations on association lists.  A JS map holds at most
one entry per key; lookup, replacement and deletion therefore act on the
first (only) entry with the key. -/

/-- `Map.get`: first entry with the key, if any. -/
def mapGet {α : Type} : List (String × α) → String → Option α
  | [], _ => none
  | p :: ps, k => if p.1 = k then some p.2 else mapGet ps k

/-- `Map.set`: replace the entry for the key, or append a new one. -/
def mapSet {α : Type} : List (String × α) → String → α → List (String × α)
  | [], k, v => [(k, v)]
  | p :: ps, k, v => if p.1 = k then (k, v) :: ps else p :: mapSet ps k v

/-- `Map.delete`: remove the entry for the key (no-op when absent). -/
def mapDelete {α : Type} : List (String × α) → String → List (String × α)
  | [], _ => []
  | p :: ps, k => if p.1 = k then mapDelete ps k else p :: mapDelete ps k

/-- The keys of an association list are pairwise distinct (a structural
invariant of every JS `Map`). -/
def keysNodup {α : Type} (m : List (String × α)) : Prop :=
  (m.map Prod.fst).Nodup

/-- The `resolve`/`reject` callback pair stored in `responseHandlers`
(`PromiseSource` in the source).  The token identifies the promise created
by `sendRequest`. -/
structure PromiseSource where
  token : Nat
deriving DecidableEq, Repr

/-- Result of running a registered closure handler: a returned record,
`void`, or a thrown value (the source's `try`/`catch`). -/
inductive HandlerResult where
  | ok (result : Option JValue) : HandlerResult
  | threw (error : JValue) : HandlerResult

/-- A registered closure handler (`ClosureTarget` in the source). -/
def ClosureTarget : Type := List (String × JValue) → HandlerResult

/-- Procedure names carried by inbound and outbound requests. -/
inductive Procedure where
  | init
  | perform
  | release
  | manualRelease
deriving DecidableEq, Repr

/-- An inbound request envelope after `JSON.parse` (any of the
`NSRPCRequest` union members; fields that are optional at runtime are
`Option`s). -/
structure NSRPCRequestMsg where
  id : Option String
  procedure : Procedure
  target : String
  type : Option String
  action : Option String
  params : Option (List (String × JValue))

/-- An inbound response envelope after `JSON.parse` (`NSRPCResponse`);
`error = some e` models the presence of the `error` property checked by
`"error" in message`, `result = none` models an absent `result`. -/
structure NSRPCResponseMsg where
  id : String
  status : Int
  error : Option JValue
  result : Option JValue

/-- The body of an outbound response (`NSRPCResponseBody`): either
`{status: 200, result?}` or `{status, error}`. -/
inductive NSRPCResponseBody where
  | success (result : Option JValue) : NSRPCResponseBody
  | failure (status : Int) (error : List (String × JValue)) : NSRPCResponseBody

/-- The body of an outbound request (`NSRPCRequestBody`), flattened over the
union members with runtime-optional fields as `Option`s. -/
structure NSRPCRequestBody where
  procedure : Procedure
  target : Option String
  type : Option String
  action : Option String
  params : Option (List (String × JValue))

/-- A message handed to the transport by `sendMessage` (spread of a body
plus `nsrpc: 1` and the envelope `id`). -/
inductive SentMessage where
  | response (nsrpc : Int) (id : String) (body : NSRPCResponseBody) : SentMessage
  | request (nsrpc : Int) (id : String) (body : NSRPCRequestBody) : SentMessage

/-- The outcome delivered to a pending promise: `resolve(message.result)`
(with `none` for `undefined`) or `reject(message.error)`. -/
inductive Outcome where
  | resolved (value : Option JValue) : Outcome
  | rejected (reason : JValue) : Outcome

/-- Observable effects of processing a line: settling a pending promise, or
invoking a registered closure handler with its params. -/
inductive Event where
  | settle (ps : PromiseSource) (o : Outcome) : Event
  | invoked (target : String) (params : List (String × JValue)) : Event

/-- The mutable state of an `NSRPC` instance: the two private `Map`s. -/
structure RPCState where
  responseHandlers : List (String × PromiseSource)
  closureTargets : List (String × ClosureTarget)

/-- Outcome of `JSON.parse(data)` inside `receive`: the `catch` branch
(`malformed`), or a message discriminated by `"status" in message`. -/
inductive ParsedLine where
  | malformed : ParsedLine
  | response (r : NSRPCResponseMsg) : ParsedLine
  | request (q : NSRPCRequestMsg) : ParsedLine

/-- What one call to `receive` produces: the updated state, the messages
handed to the transport, and the observable events. -/
structure ReceiveResult where
  state : RPCState
  sent : List SentMessage
  events : List Event

/-- The 501 error payload built by `handleRequest`. -/
def notImplementedError (debugDescription : String) : List (String × JValue) :=
  [("debugDescription", JValue.str debugDescription),
   ("userMessage", JValue.str
     "Failed to communicate with external process. (Procedure not implemented)")]

/-- The 404 error payload built by `handleClosureRequest`. -/
def targetNotFoundError (target : String) : List (String × JValue) :=
  [("debugDescription", JValue.str
     ("Perform target \x27" ++ target ++ "\x27 not found.")),
   ("userMessage", JValue.str
     "Failed to communicate with external process. (Target not found)")]

/-- The 202 error payload built by the `catch` branch of
`handleClosureRequest`. -/
def handlerFailedError (error : JValue) : List (String × JValue) :=
  [("debugDescription", JValue.str (jsCoerceString error)),
   ("userMessage", JValue.str "Handler failed to perform request."),
   ("underlyingError", error)]

/-- `NSRPC.handleClosureRequest`: look up the target's handler (404 when
absent), invoke it with `request.params ?? {}`, and build a 200 response
from its return value or a 202 error response from a thrown value. -/
def handleClosureRequest (st : RPCState) (q : NSRPCRequestMsg) :
    NSRPCResponseBody × List Event :=
  match mapGet st.closureTargets q.target with
  | none => (NSRPCResponseBody.failure 404 (targetNotFoundError q.target), [])
  | some handler =>
    let p := q.params.getD []
    match handler p with
    | HandlerResult.ok result =>
      (NSRPCResponseBody.success result, [Event.invoked q.target p])
    | HandlerResult.threw error =>
      (NSRPCResponseBody.failure 202 (handlerFailedError error),
       [Event.invoked q.target p])

/-- `NSRPC.handleRequest`: the `switch` on `request.procedure`.  `init` and
`release` answer 501; `perform` with an `action` answers 501, without one it
is dispatched to `handleClosureRequest`; `manual-release` falls through the
switch, so the function returns `undefined` (`none`). -/
def handleRequest (st : RPCState) (q : NSRPCRequestMsg) :
    Option NSRPCResponseBody × List Event :=
  match q.procedure with
  | Procedure.init =>
    (some (NSRPCResponseBody.failure 501
      (notImplementedError "Init procedure not implemented.")), [])
  | Procedure.perform =>
    match q.action with
    | some _ =>
      (some (NSRPCResponseBody.failure 501
        (notImplementedError
          "Perform procedure for (static) methods not implemented.")), [])
    | none =>
      let r := handleClosureRequest st q
      (some r.1, r.2)
  | Procedure.release =>
    (some (NSRPCResponseBody.failure 501
      (notImplementedError "Release procedure not implemented.")), [])
  | Procedure.manualRelease => (none, [])

/-- `NSRPC.sendResponse`: drop the response when the request carried no
`id`, otherwise hand `{...response, nsrpc: 1, id}` to the transport. -/
def sendResponse (id : Option String) (body : NSRPCResponseBody) :
    List SentMessage :=
  match id with
  | none => []
  | some i => [SentMessage.response 1 i body]

/-- `NSRPC.receive`, translated branch by branch:
* `JSON.parse` throws → return (the `catch` branch);
* `"status" in message` → look up and delete the handler for `message.id`;
  if none was pending, return; otherwise `reject(message.error)` when the
  `error` property is present, else `resolve(message.result)`;
* otherwise dispatch to `handleRequest` and send the body it returns (when
  it returns one) under the request's `id`. -/
def receive (st : RPCState) (line : ParsedLine) : ReceiveResult :=
  match line with
  | ParsedLine.malformed => ⟨st, [], []⟩
  | ParsedLine.response r =>
    let responseHandler := mapGet st.responseHandlers r.id
    let st' : RPCState :=
      { st with responseHandlers := mapDelete st.responseHandlers r.id }
    match responseHandler with
    | none => ⟨st', [], []⟩
    | some ps =>
      match r.error with
      | some e => ⟨st', [], [Event.settle ps (Outcome.rejected e)]⟩
      | none => ⟨st', [], [Event.settle ps (Outcome.resolved r.result)]⟩
  | ParsedLine.request q =>
    match handleRequest st q with
    | (none, evs) => ⟨st, [], evs⟩
    | (some body, evs) => ⟨st, sendResponse q.id body, evs⟩

/-- What `sendRequest` returns: the updated state, the request handed to
the transport, the generated id and the promise registered under it. -/
structure SendRequestResult where
  state : RPCState
  sent : List SentMessage
  id : String
  promise : PromiseSource

/-- `NSRPC.sendRequest`: generate `"req_" + randomUUID()`, register the new
promise's callbacks under that id, and hand `{...request, nsrpc: 1, id}` to
the transport.  `uuid` is the value produced by `randomUUID()` and `ps` the
freshly allocated promise. -/
def sendRequest (st : RPCState) (uuid : String) (ps : PromiseSource)
    (body : NSRPCRequestBody) : SendRequestResult :=
  let id := "req_" ++ uuid
  ⟨{ st with responseHandlers := mapSet st.responseHandlers id ps },
   [SentMessage.request 1 id body], id, ps⟩

/-- `NSRPC.initialize` (the part that talks to the wire): send an `init`
request for the target.  The finalization-registry callback it also
registers later runs `releaseRPC` on the same target. -/
def initializeRPC (st : RPCState) (uuid : String) (ps : PromiseSource)
    (target : String) (type : String)
    (params : Option (List (String × JValue))) : SendRequestResult :=
  sendRequest st uuid ps
    ⟨Procedure.init, some target, some type, none, params⟩

/-- `NSRPC.perform`: send a `perform` request with the given body. -/
def performRPC (st : RPCState) (uuid : String) (ps : PromiseSource)
    (target : Option String) (type : Option String) (action : Option String)
    (params : Option (List (String × JValue))) : SendRequestResult :=
  sendRequest st uuid ps ⟨Procedure.perform, target, type, action, params⟩

/-- `NSRPC.release` (private; run by the finalization registry): send a
`release` request for the target. -/
def releaseRPC (st : RPCState) (uuid : String) (ps : PromiseSource)
    (target : String) : SendRequestResult :=
  sendRequest st uuid ps ⟨Procedure.release, some target, none, none, none⟩

/-- `NSRPC.manualRelease`: send a `manual-release` request for the
target. -/
def manualReleaseRPC (st : RPCState) (uuid : String) (ps : PromiseSource)
    (target : String) : SendRequestResult :=
  sendRequest st uuid ps
    ⟨Procedure.manualRelease, some target, none, none, none⟩

/-- `NSRPC.registerClosure`: build the target id
`target_<pfx>_<uuid>`, register the handler under it, and return the
target id.  (The finalization-registry callback it also registers later
deletes the entry again.) -/
def registerClosure (st : RPCState) (uuid : String) (pfx : String)
    (handler : ClosureTarget) : RPCState × String :=
  let target := "target_" ++ pfx ++ "_" ++ uuid
  ({ st with closureTargets := mapSet st.closureTargets target handler },
   target)

/-- Processing a sequence of inbound lines, accumulating sent messages and
events in delivery order. -/
def receiveAll (st : RPCState) (lines : List ParsedLine) :
    ReceiveResult :=
  match lines with
  | [] => ⟨st, [], []⟩
  | l :: ls =>
    let r := receive st l
    let rest := receiveAll r.state ls
    ⟨rest.state, r.sent ++ rest.sent, r.events ++ rest.events⟩

/-- The settlement `receive` performs for an inbound response `r` given the
pending map: `reject` of the `error` property when present, else `resolve`
of the `result` property. -/
def responseOutcome (r : NSRPCResponseMsg) : Outcome :=
  match r.error with
  | some e => Outcome.rejected e
  | none => Outcome.resolved r.result

/- Association-list lemmas for the JS `Map` operations. -/

/-- Deleting a key other than `k` does not change the entry for `k`. -/
theorem mapGet_mapDelete_ne {α : Type} (m : List (String × α)) (k i : String)
    (h : k ≠ i) : mapGet (mapDelete m i) k = mapGet m k := by
  induction m with
  | nil => rfl
  | cons p ps ih =>
    obtain ⟨a, b⟩ := p
    by_cases ha : a = i
    · subst ha
      have hk : ¬ a = k := fun hc => h hc.symm
      simp [mapDelete, mapGet, hk, ih]
    · by_cases hk : a = k
      · subst hk
        simp [mapDelete, ha, mapGet]
      · simp [mapDelete, ha, mapGet, hk, ih]

/-- After deleting `i`, the map has no entry for `i`. -/
theorem mapGet_mapDelete_self {α : Type} (m : List (String × α)) (i : String) :
    mapGet (mapDelete m i) i = none := by
  induction m with
  | nil => rfl
  | cons p ps ih =>
    by_cases hp : p.1 = i
    · rw [mapDelete, if_pos hp]; exact ih
    · rw [mapDelete, if_neg hp, mapGet, if_neg hp]; exact ih

/-- Deleting a key that is absent leaves the map unchanged. -/
theorem mapDelete_absent {α : Type} (m : List (String × α)) (i : String)
    (h : mapGet m i = none) : mapDelete m i = m := by
  induction m with
  | nil => rfl
  | cons p ps ih =>
    rw [mapGet] at h
    by_cases hp : p.1 = i
    · rw [if_pos hp] at h; exact absurd h (by simp)
    · rw [if_neg hp] at h
      rw [mapDelete, if_neg hp, ih h]

/-- Setting a key makes lookup of that key return the new value. -/
theorem mapGet_mapSet_self {α : Type} (m : List (String × α)) (k : String)
    (v : α) : mapGet (mapSet m k v) k = some v := by
  induction m with
  | nil => simp [mapSet, mapGet]
  | cons p ps ih =>
    by_cases hp : p.1 = k
    · simp [mapSet, hp, mapGet]
    · simp [mapSet, hp, mapGet, ih]

/-- Setting key `i` leaves every other key's entry unchanged. -/
theorem mapGet_mapSet_ne {α : Type} (m : List (String × α)) (k i : String)
    (v : α) (h : k ≠ i) : mapGet (mapSet m i v) k = mapGet m k := by
  have hik : ¬ (i = k) := fun hc => h hc.symm
  induction m with
  | nil => simp [mapSet, mapGet, hik]
  | cons p ps ih =>
    obtain ⟨a, b⟩ := p
    by_cases ha : a = i
    · subst ha
      simp [mapSet, mapGet, hik]
    · by_cases hk : a = k
      · subst hk
        simp [mapSet, ha, mapGet]
      · simp [mapSet, ha, mapGet, hk, ih]

/-- Setting a key that is absent appends the new entry at the end. -/
theorem mapSet_absent {α : Type} (m : List (String × α)) (k : String) (v : α)
    (h : mapGet m k = none) : mapSet m k v = m ++ [(k, v)] := by
  induction m with
  | nil => rfl
  | cons p ps ih =>
    rw [mapGet] at h
    by_cases hp : p.1 = k
    · rw [if_pos hp] at h; exact absurd h (by simp)
    · rw [if_neg hp] at h
      rw [mapSet, if_neg hp, ih h, List.cons_append]

/-- A key is absent iff it is not among the map's keys. -/
theorem mapGet_eq_none_iff {α : Type} (m : List (String × α)) (k : String) :
    mapGet m k = none ↔ k ∉ m.map Prod.fst := by
  induction m with
  | nil => simp [mapGet]
  | cons p ps ih =>
    obtain ⟨a, b⟩ := p
    by_cases ha : a = k
    · subst ha
      simp [mapGet]
    · have hka : ¬ k = a := fun hc => ha hc.symm
      simp [mapGet, ha, hka, ih]

/-- Deletion yields a sublist of the original association list. -/
theorem mapDelete_sublist {α : Type} (m : List (String × α)) (i : String) :
    List.Sublist (mapDelete m i) m := by
  induction m with
  | nil => simp [mapDelete]
  | cons p ps ih =>
    by_cases hp : p.1 = i
    · rw [mapDelete, if_pos hp]
      exact ih.cons p
    · rw [mapDelete, if_neg hp]
      exact ih.cons₂ p

/-- Deleting a key preserves distinctness of keys. -/
theorem keysNodup_mapDelete {α : Type} (m : List (String × α)) (i : String)
    (h : keysNodup m) : keysNodup (mapDelete m i) :=
  List.Nodup.sublist ((mapDelete_sublist m i).map Prod.fst) h

/-- Appending a fresh key preserves distinctness of keys. -/
theorem keysNodup_append_fresh {α : Type} (m : List (String × α)) (k : String)
    (v : α) (h : keysNodup m) (hk : mapGet m k = none) :
    keysNodup (m ++ [(k, v)]) := by
  unfold keysNodup at h ⊢
  rw [List.map_append]
  simp only [List.map_cons, List.map_nil]
  rw [List.nodup_append]
  refine ⟨h, List.nodup_singleton k, ?_⟩
  intro a ha hb
  simp only [List.mem_singleton] at hb
  exact ((mapGet_eq_none_iff m k).mp hk) (hb ▸ ha)

/- Shared helper lemmas about `receive`. -/

/-- On a response whose id has a pending entry, `receive` removes that entry
and settles it according to the presence of the `error` property. -/
theorem receive_response_pending_eq (st : RPCState) (r : NSRPCResponseMsg)
    (ps : PromiseSource) (hp : mapGet st.responseHandlers r.id = some ps) :
    receive st (ParsedLine.response r)
      = ⟨{ st with responseHandlers := mapDelete st.responseHandlers r.id },
         [], [Event.settle ps (responseOutcome r)]⟩ := by
  cases he : r.error with
  | none => simp [receive, hp, he, responseOutcome]
  | some e => simp [receive, hp, he, responseOutcome]

/-- `receive` never mutates the state while handling an inbound request. -/
theorem receive_request_state_eq (st : RPCState) (q : NSRPCRequestMsg) :
    (receive st (ParsedLine.request q)).state = st := by
  rcases h : handleRequest st q with ⟨b, evs⟩
  cases b <;> simp [receive, h]

/-- C5. Malformed input resilience: a line that is not valid JSON leaves the
state (both maps) unchanged, settles no pending entry, invokes no closure
handler, and sends nothing on the transport, so a subsequent valid line is
processed from the very same state.  (`receive` is a total function, so no
exception is raised.) -/
theorem malformed_line_no_effect (st : RPCState) :
    receive st ParsedLine.malformed = ⟨st, [], []⟩ := rfl

/-- C7. Orphan response handling: a response whose id has no pending entry
makes `receive` return with the state unchanged (the `delete` of an absent
key is a no-op), nothing sent, and no resolve/reject callback invoked. -/
theorem orphan_response_no_effect (st : RPCState) (r : NSRPCResponseMsg)
    (h : mapGet st.responseHandlers r.id = none) :
    receive st (ParsedLine.response r) = ⟨st, [], []⟩ := by
  simp [receive, h, mapDelete_absent st.responseHandlers r.id h]

/-- Witness for C7 at a concrete input: one pending entry `req_a`, response
for the unknown id `req_b`. -/
theorem orphan_response_no_effect_w :
    mapGet (RPCState.mk [("req_a", PromiseSource.mk 0)] []).responseHandlers
      (NSRPCResponseMsg.mk "req_b" 200 none none).id = none
  ∧ receive (RPCState.mk [("req_a", PromiseSource.mk 0)] [])
      (ParsedLine.response (NSRPCResponseMsg.mk "req_b" 200 none none))
      = ⟨RPCState.mk [("req_a", PromiseSource.mk 0)] [], [], []⟩ :=
  ⟨by decide, orphan_response_no_effect _ _ (by decide)⟩

/-- C2. Remote-error propagation: a response with a non-200 status carrying
an `error` payload for a pending id makes `receive` reject the pending
promise with exactly that payload, unmodified, and send nothing. -/
theorem remote_error_rejects_with_payload (st : RPCState)
    (r : NSRPCResponseMsg) (ps : PromiseSource) (err : JValue)
    (_hs : r.status ≠ 200) (he : r.error = some err)
    (hp : mapGet st.responseHandlers r.id = some ps) :
    (receive st (ParsedLine.response r)).events
      = [Event.settle ps (Outcome.rejected err)]
    ∧ (receive st (ParsedLine.response r)).sent = [] := by
  simp [receive, hp, he]

/-- Witness for C2 at the spec's example: pending `req_3`, response
`{status: 500, id: "req_3", error: {message: "busy"}}` rejects the pending
promise with an object equal to `{message: "busy"}`. -/
theorem remote_error_rejects_with_payload_w :
    (NSRPCResponseMsg.mk "req_3" 500
        (some (JValue.obj [("message", JValue.str "busy")])) none).status ≠ 200
  ∧ (NSRPCResponseMsg.mk "req_3" 500
        (some (JValue.obj [("message", JValue.str "busy")])) none).error
      = some (JValue.obj [("message", JValue.str "busy")])
  ∧ mapGet (RPCState.mk [("req_3", PromiseSource.mk 37)] []).responseHandlers
      (NSRPCResponseMsg.mk "req_3" 500
        (some (JValue.obj [("message", JValue.str "busy")])) none).id
      = some (PromiseSource.mk 37)
  ∧ ((receive (RPCState.mk [("req_3", PromiseSource.mk 37)] [])
        (ParsedLine.response
          (NSRPCResponseMsg.mk "req_3" 500
            (some (JValue.obj [("message", JValue.str "busy")])) none))).events
      = [Event.settle (PromiseSource.mk 37)
          (Outcome.rejected (JValue.obj [("message", JValue.str "busy")]))]
    ∧ (receive (RPCState.mk [("req_3", PromiseSource.mk 37)] [])
        (ParsedLine.response
          (NSRPCResponseMsg.mk "req_3" 500
            (some (JValue.obj [("message", JValue.str "busy")])) none))).sent
      = []) :=
  ⟨by decide, rfl, rfl,
   remote_error_rejects_with_payload _ _ _ _ (by decide) rfl rfl⟩

/-- C9. Settlement is discriminated by the `error` key, not by the status
value: `receive` on a response envelope behaves identically for any two
status values (the status field is never consulted), and a pending entry is
rejected with the `error` property's value exactly when that property is
present, otherwise resolved with the `result` property (with `undefined`
when `result` is absent).  In particular a status-200 response carrying an
`error` field is rejected, and a non-200 response without one is
resolved. -/
theorem settlement_ignores_status :
    (∀ (st : RPCState) (i : String) (s1 s2 : Int) (e res : Option JValue),
      receive st (ParsedLine.response (NSRPCResponseMsg.mk i s1 e res))
        = receive st (ParsedLine.response (NSRPCResponseMsg.mk i s2 e res)))
  ∧ (∀ (st : RPCState) (r : NSRPCResponseMsg) (ps : PromiseSource),
      mapGet st.responseHandlers r.id = some ps →
      (receive st (ParsedLine.response r)).events
        = [Event.settle ps (responseOutcome r)]
      ∧ ((∃ e, r.error = some e ∧
            responseOutcome r = Outcome.rejected e)
         ∨ (r.error = none ∧
            responseOutcome r = Outcome.resolved r.result))) := by
  constructor
  · intro st i s1 s2 e res
    rfl
  · intro st r ps hp
    refine ⟨by rw [receive_response_pending_eq st r ps hp], ?_⟩
    cases he : r.error with
    | none => exact Or.inr ⟨rfl, by simp [responseOutcome, he]⟩
    | some e => exact Or.inl ⟨e, rfl, by simp [responseOutcome, he]⟩

/-- Witness for C9 at a concrete input: a status-200 response that carries
an `error` field is rejected. -/
theorem settlement_ignores_status_w :
    mapGet (RPCState.mk [("req_9", PromiseSource.mk 5)] []).responseHandlers
      (NSRPCResponseMsg.mk "req_9" 200 (some (JValue.str "boom")) none).id
      = some (PromiseSource.mk 5)
  ∧ ((receive (RPCState.mk [("req_9", PromiseSource.mk 5)] [])
        (ParsedLine.response
          (NSRPCResponseMsg.mk "req_9" 200 (some (JValue.str "boom")) none))).events
      = [Event.settle (PromiseSource.mk 5)
          (responseOutcome
            (NSRPCResponseMsg.mk "req_9" 200 (some (JValue.str "boom")) none))]
    ∧ ((∃ e, (NSRPCResponseMsg.mk "req_9" 200 (some (JValue.str "boom")) none).error
            = some e ∧
          responseOutcome
            (NSRPCResponseMsg.mk "req_9" 200 (some (JValue.str "boom")) none)
            = Outcome.rejected e)
       ∨ ((NSRPCResponseMsg.mk "req_9" 200 (some (JValue.str "boom")) none).error
            = none ∧
          responseOutcome
            (NSRPCResponseMsg.mk "req_9" 200 (some (JValue.str "boom")) none)
            = Outcome.resolved
                (NSRPCResponseMsg.mk "req_9" 200 (some (JValue.str "boom")) none).result))) :=
  ⟨rfl, settlement_ignores_status.2
    (RPCState.mk [("req_9", PromiseSource.mk 5)] [])
    (NSRPCResponseMsg.mk "req_9" 200 (some (JValue.str "boom")) none)
    (PromiseSource.mk 5) rfl⟩

/-- C1. Correlation correctness: starting from any state, delivering any
list of responses with pairwise distinct ids, each of which has a pending
entry (so in particular the responses to a set of concurrently outstanding
requests, in any permuted order), settles exactly the pending entry whose
id matches each response — one settlement per response, with that entry's
promise and that response's outcome — sends nothing, removes exactly the
matched entries, leaves every other pending entry unchanged, and leaves the
closure registrations untouched. -/
theorem correlation_correct (st : RPCState) (rs : List NSRPCResponseMsg)
    (hnd : (rs.map NSRPCResponseMsg.id).Nodup)
    (hp : ∀ r ∈ rs, (mapGet st.responseHandlers r.id).isSome) :
    (receiveAll st (rs.map ParsedLine.response)).events
      = rs.filterMap (fun r =>
          (mapGet st.responseHandlers r.id).map
            (fun ps => Event.settle ps (responseOutcome r)))
  ∧ (receiveAll st (rs.map ParsedLine.response)).sent = []
  ∧ (∀ k, k ∉ rs.map NSRPCResponseMsg.id →
      mapGet (receiveAll st (rs.map ParsedLine.response)).state.responseHandlers k
        = mapGet st.responseHandlers k)
  ∧ (∀ r ∈ rs,
      mapGet (receiveAll st (rs.map ParsedLine.response)).state.responseHandlers
        r.id = none)
  ∧ (receiveAll st (rs.map ParsedLine.response)).state.closureTargets
      = st.closureTargets := by
  induction rs generalizing st with
  | nil =>
    exact ⟨rfl, rfl, fun k _ => rfl, fun r hr => absurd hr (List.not_mem_nil r),
      rfl⟩
  | cons r rest ih =>
    rw [List.map_cons] at hnd
    have hrid : r.id ∉ rest.map NSRPCResponseMsg.id :=
      (List.nodup_cons.mp hnd).1
    have hnd2 : (rest.map NSRPCResponseMsg.id).Nodup :=
      (List.nodup_cons.mp hnd).2
    obtain ⟨ps, hps⟩ :=
      Option.isSome_iff_exists.mp (hp r (List.mem_cons_self r rest))
    have hrecv := receive_response_pending_eq st r ps hps
    have hlook : ∀ r' ∈ rest,
        mapGet (mapDelete st.responseHandlers r.id) r'.id
          = mapGet st.responseHandlers r'.id := by
      intro r' hr'
      have hne : r'.id ≠ r.id := fun hc =>
        hrid (hc ▸ List.mem_map_of_mem NSRPCResponseMsg.id hr')
      exact mapGet_mapDelete_ne st.responseHandlers r'.id r.id hne
    have hp2 : ∀ r' ∈ rest,
        (mapGet ({ st with
            responseHandlers := mapDelete st.responseHandlers r.id
          } : RPCState).responseHandlers r'.id).isSome := by
      intro r' hr'
      show (mapGet (mapDelete st.responseHandlers r.id) r'.id).isSome
      rw [hlook r' hr']
      exact hp r' (List.mem_cons_of_mem r hr')
    obtain ⟨IH1, IH2, IH3, IH4, IH5⟩ :=
      ih { st with responseHandlers := mapDelete st.responseHandlers r.id }
        hnd2 hp2
    refine ⟨?_, ?_, ?_, ?_, ?_⟩
    · rw [List.map_cons]
      show (ReceiveResult.events
        ⟨(receiveAll _ (rest.map ParsedLine.response)).state,
         (receive st (ParsedLine.response r)).sent ++ _,
         (receive st (ParsedLine.response r)).events ++ _⟩) = _
      rw [hrecv]
      show [Event.settle ps (responseOutcome r)]
          ++ (receiveAll _ (rest.map ParsedLine.response)).events = _
      rw [IH1, List.filterMap_cons, hps]
      simp only [Option.map_some', List.singleton_append, List.cons.injEq,
        true_and]
      exact List.filterMap_congr (fun r' hr' => by rw [hlook r' hr'])
    · rw [List.map_cons]
      show (receive st (ParsedLine.response r)).sent
          ++ (receiveAll _ (rest.map ParsedLine.response)).sent = []
      rw [hrecv]
      simpa using IH2
    · intro k hk
      rw [List.map_cons] at hk
      have hk1 : k ≠ r.id := fun hc => hk (hc ▸ List.mem_cons_self r.id _)
      have hk2 : k ∉ rest.map NSRPCResponseMsg.id :=
        fun hc => hk (List.mem_cons_of_mem r.id hc)
      rw [List.map_cons]
      show mapGet (ReceiveResult.state
        ⟨(receiveAll _ (rest.map ParsedLine.response)).state, _, _⟩).responseHandlers
          k = _
      rw [hrecv] at *
      calc mapGet (receiveAll _ (rest.map ParsedLine.response)).state.responseHandlers k
          = mapGet (mapDelete st.responseHandlers r.id) k := IH3 k hk2
        _ = mapGet st.responseHandlers k :=
            mapGet_mapDelete_ne st.responseHandlers k r.id hk1
    · intro r' hr'
      rw [List.map_cons]
      show mapGet (ReceiveResult.state
        ⟨(receiveAll _ (rest.map ParsedLine.response)).state, _, _⟩).responseHandlers
          r'.id = none
      rw [hrecv]
      rcases List.mem_cons.mp hr' with h1 | h2
      · subst h1
        calc mapGet (receiveAll _ (rest.map ParsedLine.response)).state.responseHandlers r'.id
            = mapGet (mapDelete st.responseHandlers r'.id) r'.id := IH3 r'.id hrid
          _ = none := mapGet_mapDelete_self st.responseHandlers r'.id
      · exact IH4 r' h2
    · rw [List.map_cons]
      show (ReceiveResult.state
        ⟨(receiveAll _ (rest.map ParsedLine.response)).state, _, _⟩).closureTargets
          = _
      rw [hrecv]
      exact IH5

/-- Witness for C1 at a concrete input: two pending requests `req_a`,
`req_b`; their responses delivered in swapped order each settle exactly the
matching entry. -/
theorem correlation_correct_w :
    (([NSRPCResponseMsg.mk "req_b" 200 none (some (JValue.num 7)),
       NSRPCResponseMsg.mk "req_a" 500 (some (JValue.str "er")) none].map
        NSRPCResponseMsg.id).Nodup)
  ∧ (∀ r ∈ [NSRPCResponseMsg.mk "req_b" 200 none (some (JValue.num 7)),
       NSRPCResponseMsg.mk "req_a" 500 (some (JValue.str "er")) none],
      (mapGet (RPCState.mk
        [("req_a", PromiseSource.mk 1), ("req_b", PromiseSource.mk 2)]
        []).responseHandlers r.id).isSome)
  ∧ ((receiveAll
        (RPCState.mk
          [("req_a", PromiseSource.mk 1), ("req_b", PromiseSource.mk 2)] [])
        ([NSRPCResponseMsg.mk "req_b" 200 none (some (JValue.num 7)),
          NSRPCResponseMsg.mk "req_a" 500 (some (JValue.str "er")) none].map
            ParsedLine.response)).events
      = [NSRPCResponseMsg.mk "req_b" 200 none (some (JValue.num 7)),
         NSRPCResponseMsg.mk "req_a" 500 (some (JValue.str "er")) none].filterMap
          (fun r =>
            (mapGet (RPCState.mk
              [("req_a", PromiseSource.mk 1), ("req_b", PromiseSource.mk 2)]
              []).responseHandlers r.id).map
              (fun ps => Event.settle ps (responseOutcome r)))
    ∧ (receiveAll
        (RPCState.mk
          [("req_a", PromiseSource.mk 1), ("req_b", PromiseSource.mk 2)] [])
        ([NSRPCResponseMsg.mk "req_b" 200 none (some (JValue.num 7)),
          NSRPCResponseMsg.mk "req_a" 500 (some (JValue.str "er")) none].map
            ParsedLine.response)).sent = []
    ∧ (∀ k, k ∉ [NSRPCResponseMsg.mk "req_b" 200 none (some (JValue.num 7)),
          NSRPCResponseMsg.mk "req_a" 500 (some (JValue.str "er")) none].map
            NSRPCResponseMsg.id →
        mapGet (receiveAll
          (RPCState.mk
            [("req_a", PromiseSource.mk 1), ("req_b", PromiseSource.mk 2)] [])
          ([NSRPCResponseMsg.mk "req_b" 200 none (some (JValue.num 7)),
            NSRPCResponseMsg.mk "req_a" 500 (some (JValue.str "er")) none].map
              ParsedLine.response)).state.responseHandlers k
          = mapGet (RPCState.mk
              [("req_a", PromiseSource.mk 1), ("req_b", PromiseSource.mk 2)]
              []).responseHandlers k)
    ∧ (∀ r ∈ [NSRPCResponseMsg.mk "req_b" 200 none (some (JValue.num 7)),
          NSRPCResponseMsg.mk "req_a" 500 (some (JValue.str "er")) none],
        mapGet (receiveAll
          (RPCState.mk
            [("req_a", PromiseSource.mk 1), ("req_b", PromiseSource.mk 2)] [])
          ([NSRPCResponseMsg.mk "req_b" 200 none (some (JValue.num 7)),
            NSRPCResponseMsg.mk "req_a" 500 (some (JValue.str "er")) none].map
              ParsedLine.response)).state.responseHandlers r.id = none)
    ∧ (receiveAll
        (RPCState.mk
          [("req_a", PromiseSource.mk 1), ("req_b", PromiseSource.mk 2)] [])
        ([NSRPCResponseMsg.mk "req_b" 200 none (some (JValue.num 7)),
          NSRPCResponseMsg.mk "req_a" 500 (some (JValue.str "er")) none].map
            ParsedLine.response)).state.closureTargets
        = (RPCState.mk
            [("req_a", PromiseSource.mk 1), ("req_b", PromiseSource.mk 2)]
            []).closureTargets) :=
  ⟨by decide, by decide,
   correlation_correct
     (RPCState.mk
       [("req_a", PromiseSource.mk 1), ("req_b", PromiseSource.mk 2)] [])
     [NSRPCResponseMsg.mk "req_b" 200 none (some (JValue.num 7)),
      NSRPCResponseMsg.mk "req_a" 500 (some (JValue.str "er")) none]
     (by decide) (by decide)⟩

/-- C3. Closure round-trip: after registering a handler via
`registerClosure`, delivering an inbound `perform` envelope addressed to
the returned target id (with an id field and no action field) invokes the
handler exactly once with the envelope's params and sends exactly one
response: status 200 carrying the handler's return value as `result` (no
`result` when the handler returns nothing), or the 202 failure response
carrying an error payload built from the thrown value when the handler
throws.  `receive` is a total function, so no exception propagates out of
it in either case. -/
theorem closure_round_trip (st : RPCState) (uuid pfx i : String)
    (handler : ClosureTarget) (params : List (String × JValue)) :
    (receive (registerClosure st uuid pfx handler).1
        (ParsedLine.request
          (NSRPCRequestMsg.mk (some i) Procedure.perform
            (registerClosure st uuid pfx handler).2 none none
            (some params)))).events
      = [Event.invoked (registerClosure st uuid pfx handler).2 params]
  ∧ (receive (registerClosure st uuid pfx handler).1
        (ParsedLine.request
          (NSRPCRequestMsg.mk (some i) Procedure.perform
            (registerClosure st uuid pfx handler).2 none none
            (some params)))).sent
      = [SentMessage.response 1 i
          (match handler params with
           | HandlerResult.ok r => NSRPCResponseBody.success r
           | HandlerResult.threw e =>
               NSRPCResponseBody.failure 202 (handlerFailedError e))] := by
  cases hr : handler params with
  | ok r =>
    refine ⟨?_, ?_⟩ <;>
      simp [registerClosure, receive, handleRequest, handleClosureRequest,
        mapGet_mapSet_self, sendResponse, hr]
  | threw e =>
    refine ⟨?_, ?_⟩ <;>
      simp [registerClosure, receive, handleRequest, handleClosureRequest,
        mapGet_mapSet_self, sendResponse, hr]

/-- Counterexample for C4 as stated: an inbound `perform` envelope without
an `id` field, addressed to an unregistered target, makes `receive` send
nothing at all — no 404 error response goes back (the quantification over
every such envelope fails on id-less ones, for which `sendResponse`
returns early). -/
theorem unknown_target_counterexample :
    (NSRPCRequestMsg.mk none Procedure.perform "tgt" none none
      none).action = none
  ∧ mapGet (RPCState.mk [] []).closureTargets
      (NSRPCRequestMsg.mk none Procedure.perform "tgt" none none
        none).target = none
  ∧ (receive (RPCState.mk [] [])
      (ParsedLine.request
        (NSRPCRequestMsg.mk none Procedure.perform "tgt" none none
          none))).sent = [] :=
  ⟨rfl, rfl, rfl⟩

/-- C4, amended.  Unknown target: an inbound `perform` envelope (no action
field) whose target id has no registered closure makes `receive` send back
the 404 not-found error response when the envelope carries an id, and send
nothing when it does not; in both cases no closure handler is invoked, the
state is unchanged, and (`receive` being total) no exception escapes the
dispatcher. -/
theorem unknown_target_404 (st : RPCState) (q : NSRPCRequestMsg)
    (hproc : q.procedure = Procedure.perform) (hact : q.action = none)
    (hmiss : mapGet st.closureTargets q.target = none) :
    (receive st (ParsedLine.request q)).sent
      = (match q.id with
         | some i => [SentMessage.response 1 i
             (NSRPCResponseBody.failure 404 (targetNotFoundError q.target))]
         | none => [])
  ∧ (receive st (ParsedLine.request q)).events = []
  ∧ (receive st (ParsedLine.request q)).state = st := by
  obtain ⟨qid, qproc, qt, qty, qa, qp⟩ := q
  cases hproc
  cases hact
  cases qid with
  | none =>
    refine ⟨?_, ?_, ?_⟩ <;>
      simp [receive, handleRequest, handleClosureRequest, hmiss, sendResponse]
  | some i =>
    refine ⟨?_, ?_, ?_⟩ <;>
      simp [receive, handleRequest, handleClosureRequest, hmiss, sendResponse]

/-- Witness for C4 (amended) at a concrete input: a `perform` envelope with
id `r1` for the unregistered target `tgt` gets the 404 response. -/
theorem unknown_target_404_w :
    (NSRPCRequestMsg.mk (some "r1") Procedure.perform "tgt" none none
      none).procedure = Procedure.perform
  ∧ (NSRPCRequestMsg.mk (some "r1") Procedure.perform "tgt" none none
      none).action = none
  ∧ mapGet (RPCState.mk [] []).closureTargets
      (NSRPCRequestMsg.mk (some "r1") Procedure.perform "tgt" none none
        none).target = none
  ∧ ((receive (RPCState.mk [] [])
        (ParsedLine.request
          (NSRPCRequestMsg.mk (some "r1") Procedure.perform "tgt" none none
            none))).sent
      = (match (NSRPCRequestMsg.mk (some "r1") Procedure.perform "tgt" none
            none none).id with
         | some i => [SentMessage.response 1 i
             (NSRPCResponseBody.failure 404
               (targetNotFoundError
                 (NSRPCRequestMsg.mk (some "r1") Procedure.perform "tgt" none
                   none none).target))]
         | none => [])
    ∧ (receive (RPCState.mk [] [])
        (ParsedLine.request
          (NSRPCRequestMsg.mk (some "r1") Procedure.perform "tgt" none none
            none))).events = []
    ∧ (receive (RPCState.mk [] [])
        (ParsedLine.request
          (NSRPCRequestMsg.mk (some "r1") Procedure.perform "tgt" none none
            none))).state = RPCState.mk [] []) :=
  ⟨rfl, rfl, rfl,
   unknown_target_404 (RPCState.mk [] [])
     (NSRPCRequestMsg.mk (some "r1") Procedure.perform "tgt" none none none)
     rfl rfl rfl⟩

/-- C6. Not-implemented procedures: an inbound request carrying an id whose
procedure is `init` or `release`, or whose procedure is `perform` with an
`action` field present, makes `receive` send back the 501 not-implemented
error response (`receive` is total, so it never throws); and a closure
handler is only ever invoked for a `perform` request without an `action`
field. -/
theorem not_implemented_procedures :
    (∀ (st : RPCState) (q : NSRPCRequestMsg) (i : String),
      q.id = some i → q.procedure = Procedure.init →
      (receive st (ParsedLine.request q)).sent
        = [SentMessage.response 1 i
            (NSRPCResponseBody.failure 501
              (notImplementedError "Init procedure not implemented."))]
      ∧ (receive st (ParsedLine.request q)).events = [])
  ∧ (∀ (st : RPCState) (q : NSRPCRequestMsg) (i : String),
      q.id = some i → q.procedure = Procedure.release →
      (receive st (ParsedLine.request q)).sent
        = [SentMessage.response 1 i
            (NSRPCResponseBody.failure 501
              (notImplementedError "Release procedure not implemented."))]
      ∧ (receive st (ParsedLine.request q)).events = [])
  ∧ (∀ (st : RPCState) (q : NSRPCRequestMsg) (i a : String),
      q.id = some i → q.procedure = Procedure.perform → q.action = some a →
      (receive st (ParsedLine.request q)).sent
        = [SentMessage.response 1 i
            (NSRPCResponseBody.failure 501
              (notImplementedError
                "Perform procedure for (static) methods not implemented."))]
      ∧ (receive st (ParsedLine.request q)).events = [])
  ∧ (∀ (st : RPCState) (q : NSRPCRequestMsg) (t : String)
        (p : List (String × JValue)),
      Event.invoked t p ∈ (receive st (ParsedLine.request q)).events →
      q.procedure = Procedure.perform ∧ q.action = none) := by
  refine ⟨?_, ?_, ?_, ?_⟩
  · intro st q i hid hproc
    obtain ⟨qid, qproc, qt, qty, qa, qp⟩ := q
    cases hid
    cases hproc
    exact ⟨rfl, rfl⟩
  · intro st q i hid hproc
    obtain ⟨qid, qproc, qt, qty, qa, qp⟩ := q
    cases hid
    cases hproc
    exact ⟨rfl, rfl⟩
  · intro st q i a hid hproc hact
    obtain ⟨qid, qproc, qt, qty, qa, qp⟩ := q
    cases hid
    cases hproc
    cases hact
    exact ⟨rfl, rfl⟩
  · intro st q t p hmem
    obtain ⟨qid, qproc, qt, qty, qa, qp⟩ := q
    cases qproc with
    | init => simp [receive, handleRequest] at hmem
    | release => simp [receive, handleRequest] at hmem
    | manualRelease => simp [receive, handleRequest] at hmem
    | perform =>
      cases qa with
      | some a => simp [receive, handleRequest] at hmem
      | none => exact ⟨rfl, rfl⟩

/-- Witness for C6 at a concrete input: an `init` request with id `r7`
draws the 501 not-implemented response and settles nothing. -/
theorem not_implemented_procedures_w :
    (NSRPCRequestMsg.mk (some "r7") Procedure.init "t" none none
      none).id = some "r7"
  ∧ (NSRPCRequestMsg.mk (some "r7") Procedure.init "t" none none
      none).procedure = Procedure.init
  ∧ ((receive (RPCState.mk [] [])
        (ParsedLine.request
          (NSRPCRequestMsg.mk (some "r7") Procedure.init "t" none none
            none))).sent
      = [SentMessage.response 1 "r7"
          (NSRPCResponseBody.failure 501
            (notImplementedError "Init procedure not implemented."))]
    ∧ (receive (RPCState.mk [] [])
        (ParsedLine.request
          (NSRPCRequestMsg.mk (some "r7") Procedure.init "t" none none
            none))).events = []) :=
  ⟨rfl, rfl,
   not_implemented_procedures.1 (RPCState.mk [] [])
     (NSRPCRequestMsg.mk (some "r7") Procedure.init "t" none none none)
     "r7" rfl rfl⟩

/-- C10. Missing params default to the empty object: when the target has a
registered handler and the envelope's `params` field is absent, the handler
is invoked with the empty record (`request.params ?? {}`), and the
response body is computed from that invocation as usual. -/
theorem missing_params_default_empty (st : RPCState) (q : NSRPCRequestMsg)
    (handler : ClosureTarget)
    (hreg : mapGet st.closureTargets q.target = some handler)
    (hnp : q.params = none) :
    (handleClosureRequest st q).2 = [Event.invoked q.target []]
  ∧ (handleClosureRequest st q).1
      = (match handler [] with
         | HandlerResult.ok r => NSRPCResponseBody.success r
         | HandlerResult.threw e =>
             NSRPCResponseBody.failure 202 (handlerFailedError e)) := by
  cases hr : handler [] with
  | ok r =>
    refine ⟨?_, ?_⟩ <;> simp [handleClosureRequest, hreg, hnp, hr]
  | threw e =>
    refine ⟨?_, ?_⟩ <;> simp [handleClosureRequest, hreg, hnp, hr]

/-- Witness for C10 at a concrete input: a handler that echoes its params
as the result, registered under `t0`, invoked by an envelope with no
`params` field, runs on the empty record. -/
theorem missing_params_default_empty_w :
    mapGet (RPCState.mk []
        [("t0", fun p => HandlerResult.ok (some (JValue.obj p)))]).closureTargets
      (NSRPCRequestMsg.mk (some "r1") Procedure.perform "t0" none none
        none).target
      = some (fun p => HandlerResult.ok (some (JValue.obj p)))
  ∧ (NSRPCRequestMsg.mk (some "r1") Procedure.perform "t0" none none
      none).params = none
  ∧ ((handleClosureRequest
        (RPCState.mk []
          [("t0", fun p => HandlerResult.ok (some (JValue.obj p)))])
        (NSRPCRequestMsg.mk (some "r1") Procedure.perform "t0" none none
          none)).2
      = [Event.invoked
          (NSRPCRequestMsg.mk (some "r1") Procedure.perform "t0" none none
            none).target []]
    ∧ (handleClosureRequest
        (RPCState.mk []
          [("t0", fun p => HandlerResult.ok (some (JValue.obj p)))])
        (NSRPCRequestMsg.mk (some "r1") Procedure.perform "t0" none none
          none)).1
      = NSRPCResponseBody.success (some (JValue.obj []))) :=
  ⟨rfl, rfl,
   missing_params_default_empty
     (RPCState.mk []
       [("t0", fun p => HandlerResult.ok (some (JValue.obj p)))])
     (NSRPCRequestMsg.mk (some "r1") Procedure.perform "t0" none none none)
     (fun p => HandlerResult.ok (some (JValue.obj p))) rfl rfl⟩

/-- Setting a fresh key preserves distinctness of keys. -/
theorem keysNodup_mapSet_fresh {α : Type} (m : List (String × α))
    (k : String) (v : α) (h : keysNodup m) (hk : mapGet m k = none) :
    keysNodup (mapSet m k v) := by
  rw [mapSet_absent m k v hk]
  exact keysNodup_append_fresh m k v h hk

/-- C8. Pending-entry invariant: assuming the id generator yields a value
not already in use, `sendRequest` creates exactly one new pending entry,
under the fresh identifier `"req_" ++ uuid`, keeping the map's keys
pairwise distinct (at most one entry per id); each of the operations
`initialize`, `perform`, `release` (also run by the finalization registry)
and `manualRelease` is such a `sendRequest` and preserves the invariant;
`registerClosure` never touches the pending map; and `receive` preserves
the invariant, removing an entry exactly when a response bearing its id
arrives: a response removes its own id and no other, and request lines and
malformed lines remove nothing. -/
theorem pending_entry_invariant :
    (∀ (st : RPCState) (uuid : String) (ps : PromiseSource)
        (body : NSRPCRequestBody),
      keysNodup st.responseHandlers →
      mapGet st.responseHandlers ("req_" ++ uuid) = none →
      (sendRequest st uuid ps body).id = "req_" ++ uuid
      ∧ (sendRequest st uuid ps body).state.responseHandlers
          = st.responseHandlers ++ [("req_" ++ uuid, ps)]
      ∧ keysNodup (sendRequest st uuid ps body).state.responseHandlers)
  ∧ (∀ (st : RPCState) (uuid : String) (ps : PromiseSource)
        (target type : String) (params : Option (List (String × JValue))),
      keysNodup st.responseHandlers →
      mapGet st.responseHandlers ("req_" ++ uuid) = none →
      keysNodup (initializeRPC st uuid ps target type
        params).state.responseHandlers)
  ∧ (∀ (st : RPCState) (uuid : String) (ps : PromiseSource)
        (target type action : Option String)
        (params : Option (List (String × JValue))),
      keysNodup st.responseHandlers →
      mapGet st.responseHandlers ("req_" ++ uuid) = none →
      keysNodup (performRPC st uuid ps target type action
        params).state.responseHandlers)
  ∧ (∀ (st : RPCState) (uuid : String) (ps : PromiseSource)
        (target : String),
      keysNodup st.responseHandlers →
      mapGet st.responseHandlers ("req_" ++ uuid) = none →
      keysNodup (releaseRPC st uuid ps target).state.responseHandlers)
  ∧ (∀ (st : RPCState) (uuid : String) (ps : PromiseSource)
        (target : String),
      keysNodup st.responseHandlers →
      mapGet st.responseHandlers ("req_" ++ uuid) = none →
      keysNodup (manualReleaseRPC st uuid ps target).state.responseHandlers)
  ∧ (∀ (st : RPCState) (uuid pfx : String) (handler : ClosureTarget),
      (registerClosure st uuid pfx handler).1.responseHandlers
        = st.responseHandlers)
  ∧ (∀ (st : RPCState) (line : ParsedLine),
      keysNodup st.responseHandlers →
      keysNodup (receive st line).state.responseHandlers)
  ∧ (∀ (st : RPCState) (r : NSRPCResponseMsg),
      mapGet (receive st
        (ParsedLine.response r)).state.responseHandlers r.id = none)
  ∧ (∀ (st : RPCState) (r : NSRPCResponseMsg) (k : String), k ≠ r.id →
      mapGet (receive st (ParsedLine.response r)).state.responseHandlers k
        = mapGet st.responseHandlers k)
  ∧ (∀ (st : RPCState) (q : NSRPCRequestMsg),
      (receive st (ParsedLine.request q)).state.responseHandlers
        = st.responseHandlers)
  ∧ (∀ (st : RPCState),
      (receive st ParsedLine.malformed).state.responseHandlers
        = st.responseHandlers) := by
  have hsend : ∀ (st : RPCState) (uuid : String) (ps : PromiseSource)
      (body : NSRPCRequestBody),
      (sendRequest st uuid ps body).state.responseHandlers
        = mapSet st.responseHandlers ("req_" ++ uuid) ps := fun _ _ _ _ => rfl
  have hrespden : ∀ (st : RPCState) (r : NSRPCResponseMsg),
      (receive st (ParsedLine.response r)).state.responseHandlers
        = mapDelete st.responseHandlers r.id := by
    intro st r
    cases hp : mapGet st.responseHandlers r.id with
    | none => simp [receive, hp]
    | some ps => cases he : r.error with
      | none => simp [receive, hp, he]
      | some e => simp [receive, hp, he]
  refine ⟨?_, ?_, ?_, ?_, ?_, ?_, ?_, ?_, ?_, ?_, ?_⟩
  · intro st uuid ps body h hk
    refine ⟨rfl, ?_, ?_⟩
    · rw [hsend, mapSet_absent _ _ _ hk]
    · rw [hsend]
      exact keysNodup_mapSet_fresh _ _ _ h hk
  · intro st uuid ps target type params h hk
    exact keysNodup_mapSet_fresh _ _ _ h hk
  · intro st uuid ps target type action params h hk
    exact keysNodup_mapSet_fresh _ _ _ h hk
  · intro st uuid ps target h hk
    exact keysNodup_mapSet_fresh _ _ _ h hk
  · intro st uuid ps target h hk
    exact keysNodup_mapSet_fresh _ _ _ h hk
  · intro st uuid pfx handler
    rfl
  · intro st line h
    cases line with
    | malformed => exact h
    | response r =>
      rw [hrespden]
      exact keysNodup_mapDelete _ _ h
    | request q =>
      rw [receive_request_state_eq]
      exact h
  · intro st r
    rw [hrespden]
    exact mapGet_mapDelete_self _ _
  · intro st r k hk
    rw [hrespden]
    exact mapGet_mapDelete_ne _ _ _ hk
  · intro st q
    rw [receive_request_state_eq]
  · intro st
    rfl

/-- Witness for C8 at a concrete input: from a state with one pending entry
`req_a`, a `manualRelease` with fresh uuid `u1` appends exactly the entry
`req_u1` and keeps the keys distinct. -/
theorem pending_entry_invariant_w :
    keysNodup (RPCState.mk [("req_a", PromiseSource.mk 1)]
      []).responseHandlers
  ∧ mapGet (RPCState.mk [("req_a", PromiseSource.mk 1)]
      []).responseHandlers ("req_" ++ "u1") = none
  ∧ ((sendRequest (RPCState.mk [("req_a", PromiseSource.mk 1)] []) "u1"
        (PromiseSource.mk 2)
        (NSRPCRequestBody.mk Procedure.manualRelease (some "t") none none
          none)).id = "req_" ++ "u1"
    ∧ (sendRequest (RPCState.mk [("req_a", PromiseSource.mk 1)] []) "u1"
        (PromiseSource.mk 2)
        (NSRPCRequestBody.mk Procedure.manualRelease (some "t") none none
          none)).state.responseHandlers
        = (RPCState.mk [("req_a", PromiseSource.mk 1)] []).responseHandlers
          ++ [("req_" ++ "u1", PromiseSource.mk 2)]
    ∧ keysNodup (sendRequest (RPCState.mk [("req_a", PromiseSource.mk 1)] [])
        "u1" (PromiseSource.mk 2)
        (NSRPCRequestBody.mk Procedure.manualRelease (some "t") none none
          none)).state.responseHandlers) :=
  ⟨by unfold keysNodup; decide, by decide,
   pending_entry_invariant.1 (RPCState.mk [("req_a", PromiseSource.mk 1)] [])
     "u1" (PromiseSource.mk 2)
     (NSRPCRequestBody.mk Procedure.manualRelease (some "t") none none none)
     (by unfold keysNodup; decide) (by decide)⟩
